import Mathlib

/-!
Verification of the Coolking cold-room telemetry engine (Flask/SQLite source:
`app.py`, `database.py`).  The Python functions relevant to the claims are
shallowly embedded below: SQLite tables become Lean lists of records, SQL
timestamps become rational epoch-seconds (`none` models SQL NULL), Python
numbers become `ℚ`, and Python truthiness of optional strings is made
explicit.  Each embedded definition is a direct translation of the named
source function.
-/

namespace Coolking

/-- A row of the `cold_rooms` table (`database.py`, schema in `init_db`).
`sensor_id` is nullable. -/
structure ColdRoom where
  id : Nat
  sensor_id : Option String
  location_id : Nat
  deriving Repr, DecidableEq

/-- A row of the `temperature_data` table.  `timestamp` is epoch seconds;
it is an `Option` because the DATETIME column is nullable (its default is
CURRENT_TIMESTAMP but NULL can be stored). -/
structure TempSample where
  cold_room_id : Nat
  temperature : ℚ
  timestamp : Option ℚ
  deriving Repr, DecidableEq

/-- A row of the `esp32_errors` table. -/
structure Esp32Error where
  id : Nat
  esp32_mac : String
  sensor_id : String
  error_type : String
  error_message : String
  timestamp : ℚ
  resolved : Bool
  deriving Repr, DecidableEq

/-- The mutable database state touched by the ingestion pipeline and the
error log.  `next_error_id` models the AUTOINCREMENT id of `esp32_errors`. -/
structure DBState where
  cold_rooms : List ColdRoom
  temperature_data : List TempSample
  esp32_errors : List Esp32Error
  next_error_id : Nat
  deriving Repr, DecidableEq

/-- One element of the `readings` array of the ingestion payload.  Both
fields come from `reading.get(...)`, hence `Option`. -/
structure Reading where
  sensor_id : Option String
  temperature : Option ℚ
  deriving Repr, DecidableEq

/-- Python truthiness of an optional string (`if sensor_id` in
`receive_esp32_data`): present and non-empty. -/
def truthyStr : Option String → Bool
  | none => false
  | some s => s ≠ ""

/-- Python `sensor_id or 'UNKNOWN'` (`app.py` line 165). -/
def orUnknown : Option String → String
  | none => "UNKNOWN"
  | some s => if s = "" then "UNKNOWN" else s

/-- Embeds `database.get_cold_room_by_sensor`: first `cold_rooms` row whose
`sensor_id` equals the given string. -/
def get_cold_room_by_sensor (db : DBState) (sid : String) : Option ColdRoom :=
  db.cold_rooms.find? (fun r => r.sensor_id = some sid)

/-- Embeds `database.insert_temperature_data`: append one sample row, stamped with
the current time. -/
def insert_temperature_data (db : DBState) (cold_room_id : Nat) (t : ℚ)
    (now : ℚ) : DBState :=
  { db with temperature_data :=
      db.temperature_data ++ [⟨cold_room_id, t, some now⟩] }

/-- Embeds `database.log_esp32_error`: append one error row, unresolved, stamped
with the current time. -/
def log_esp32_error (db : DBState) (esp32_mac sensor_id error_type
    error_message : String) (now : ℚ) : DBState :=
  { db with
      esp32_errors := db.esp32_errors ++
        [⟨db.next_error_id, esp32_mac, sensor_id, error_type, error_message,
          now, false⟩],
      next_error_id := db.next_error_id + 1 }

/-- The message text of a MALFORMED_DATA log entry (`app.py` line 167);
`None` renders Python's `None`. -/
def malformed_msg (r : Reading) : String :=
  "Malformed reading: sensor_id=" ++
    (match r.sensor_id with | some s => s | none => "None") ++
  ", temperature=" ++
    (match r.temperature with | some t => toString t | none => "None")

/-- The message text of an UNREGISTERED_SENSOR log entry (`app.py` line 157). -/
def unregistered_msg (sid : String) : String :=
  "Unregistered sensor_id " ++ sid ++ " attempting to send data"

/-- Running state of the per-request loop in `receive_esp32_data`:
the database plus the two counters. -/
structure IngestState where
  db : DBState
  processed_count : Nat
  error_count : Nat
  deriving Repr, DecidableEq

/-- The body of the `for reading in readings` loop of
`receive_esp32_data` (`app.py` lines 142-170), one reading at a time.
The Python guard `if sensor_id and temperature is not None` is the outer
match plus the emptiness test. -/
def process_reading (esp32_mac : String) (now : ℚ) (st : IngestState)
    (r : Reading) : IngestState :=
  match r.sensor_id, r.temperature with
  | some sid, some t =>
    if sid = "" then
      { st with
          db := log_esp32_error st.db esp32_mac (orUnknown r.sensor_id)
                  "MALFORMED_DATA" (malformed_msg r) now,
          error_count := st.error_count + 1 }
    else
      match get_cold_room_by_sensor st.db sid with
      | some cold_room =>
        { st with
            db := insert_temperature_data st.db cold_room.id t now,
            processed_count := st.processed_count + 1 }
      | none =>
        { st with
            db := log_esp32_error st.db esp32_mac sid
                    "UNREGISTERED_SENSOR" (unregistered_msg sid) now,
            error_count := st.error_count + 1 }
  | _, _ =>
    { st with
        db := log_esp32_error st.db esp32_mac (orUnknown r.sensor_id)
                "MALFORMED_DATA" (malformed_msg r) now,
        error_count := st.error_count + 1 }

/-- The whole reading loop of `receive_esp32_data`: fold the loop body over
the batch, counters starting at 0. -/
def ingest (esp32_mac : String) (now : ℚ) (db : DBState)
    (readings : List Reading) : IngestState :=
  readings.foldl (process_reading esp32_mac now) ⟨db, 0, 0⟩

/-- The acceptance condition of a reading against the current registry:
truthy sensor id, present temperature, and the id resolves to a room. -/
def reading_accepted (db : DBState) (r : Reading) : Bool :=
  truthyStr r.sensor_id && r.temperature.isSome &&
    (match r.sensor_id with
     | some sid => (get_cold_room_by_sensor db sid).isSome
     | none => false)

/-! ### Transport envelope (`receive_esp32_data`, `app.py` lines 128-180) -/

/-- The JSON value found under the `readings` key: either an array of
reading objects, or some other (non-iterable-of-dicts) value whose Python
truthiness is recorded; iterating over the latter raises inside the loop. -/
inductive ReadingsVal where
  | rlist (rs : List Reading)
  | scalar (truthy : Bool)
  deriving Repr, DecidableEq

/-- The parsed request body: `data.get('esp32_mac')` and
`data.get('readings')`. -/
structure ReqBody where
  esp32_mac : Option String
  readings : Option ReadingsVal
  deriving Repr, DecidableEq

/-- Python truthiness of the `readings` field: `None` and `[]` are falsy. -/
def truthyReadings : Option ReadingsVal → Bool
  | none => false
  | some (.rlist rs) => !rs.isEmpty
  | some (.scalar b) => b

/-- The HTTP response of the ingestion endpoint: status code plus the
`status` and `message` fields of the JSON body. -/
structure ApiResponse where
  code : Nat
  status : String
  message : String
  deriving Repr, DecidableEq

/-- The success message built at `app.py` lines 172-174: the errors clause
is appended only when `error_count > 0`. -/
def response_message (processed_count error_count : Nat) : String :=
  "Processed " ++ toString processed_count ++ " readings." ++
    (if error_count > 0 then
      " " ++ toString error_count ++ " errors logged."
    else "")

/-- Embeds `receive_esp32_data`: `body = none` models a falsy `request.get_json()`
result (JSON `null` / empty object → 400 "Invalid JSON"); then the Python
guard `if not esp32_mac or not readings` → 400; a truthy non-array
`readings` raises in the loop and is caught by the blanket handler → 500;
otherwise the batch is ingested and the endpoint always answers 200. -/
def receive_esp32_data (now : ℚ) (db : DBState) (body : Option ReqBody) :
    ApiResponse × DBState :=
  match body with
  | none => (⟨400, "error", "Invalid JSON"⟩, db)
  | some data =>
    if !truthyStr data.esp32_mac || !truthyReadings data.readings then
      (⟨400, "error", "Missing esp32_mac or readings"⟩, db)
    else
      match data.readings with
      | some (.rlist readings) =>
        let res := ingest (data.esp32_mac.getD "") now db readings
        (⟨200, "success",
           response_message res.processed_count res.error_count⟩, res.db)
      | _ => (⟨500, "error", "Internal server error"⟩, db)

/-- The envelope-rejection condition the claim describes: `esp32_mac` or
`readings` absent, null, or (for `readings`) not present as a collection
(written from the spec's words, to be compared with the code's guard). -/
def envelope_invalid_spec (body : Option ReqBody) : Bool :=
  match body with
  | none => true
  | some d =>
    d.esp32_mac.isNone ||
      (match d.readings with
       | some (.rlist _) => false
       | _ => true)

/-! ### Time-series read and liveness
(`database.get_temperature_data_for_cold_room`, lines 290-321) -/

/-- One element of the list returned by
`get_temperature_data_for_cold_room`.  `seconds_ago` is the SQL expression
`(julianday('now') - julianday(timestamp)) * 86400`, NULL when the stored
timestamp is NULL. -/
structure TempRow where
  temperature : ℚ
  timestamp : Option ℚ
  seconds_ago : Option ℚ
  is_active : Bool
  deriving Repr, DecidableEq

/-- Row construction of `get_temperature_data_for_cold_room`:
`is_active = row['seconds_ago'] is None or row['seconds_ago'] <= 900`. -/
def mk_temp_row (now : ℚ) (s : TempSample) : TempRow :=
  let seconds_ago := s.timestamp.map (fun ts => now - ts)
  { temperature := s.temperature
    timestamp := s.timestamp
    seconds_ago := seconds_ago
    is_active := match seconds_ago with
      | none => true
      | some a => a ≤ 900 }

/-- The dashboard's `latest_temp` field (`app.py` line 587):
`latest['temperature'] if latest['is_active'] else None`. -/
def latest_temp_of (row : TempRow) : Option ℚ :=
  if row.is_active then some row.temperature else none

/-! ### 24-hour statistics (`database.get_24h_temperature_stats`,
lines 323-378).  The SQL windowing/ordering is the store's job; the
function below is the Python computation on the windowed, newest-first
temperature list. -/

/-- Minimum of a non-empty list, 0 on `[]` (Python `min`). -/
def listMin : List ℚ → ℚ
  | [] => 0
  | t :: ts => ts.foldl min t

/-- Maximum of a non-empty list, 0 on `[]` (Python `max`). -/
def listMax : List ℚ → ℚ
  | [] => 0
  | t :: ts => ts.foldl max t

/-- Python's last-5 slice `temperatures[-5:]`. -/
def lastN (n : Nat) (l : List ℚ) : List ℚ :=
  l.drop (l.length - n)

/-- The trend computation of `get_24h_temperature_stats`
(`database.py` lines 359-368), on the newest-first temperature list. -/
def trend_of (temperatures : List ℚ) : String :=
  if temperatures.length ≥ 2 then
    let recent_avg := (temperatures.take 5).sum /
      ((min 5 temperatures.length : ℕ) : ℚ)
    let older_avg := (lastN 5 temperatures).sum /
      ((min 5 temperatures.length : ℕ) : ℚ)
    if recent_avg > older_avg + 0.5 then "rising"
    else if recent_avg < older_avg - 0.5 then "falling"
    else "stable"
  else "stable"

/-- The mean of the first up-to-5 samples of the newest-first sequence
(the claim's `recent_avg`). -/
def recent_mean (l : List ℚ) : ℚ := (l.take 5).sum / ((l.take 5).length : ℚ)

/-- The mean of the last up-to-5 samples of the newest-first sequence
(the claim's `older_avg`). -/
def older_mean (l : List ℚ) : ℚ :=
  (lastN 5 l).sum / ((lastN 5 l).length : ℚ)

/-- Round-half-to-even to an integer, the rounding of Python's `round`
(modelled on exact rationals). -/
def roundHalfEven (q : ℚ) : ℤ :=
  if q - (⌊q⌋ : ℚ) < 1/2 then ⌊q⌋
  else if 1/2 < q - (⌊q⌋ : ℚ) then ⌊q⌋ + 1
  else if ⌊q⌋ % 2 = 0 then ⌊q⌋ else ⌊q⌋ + 1

/-- Python `round(x, 1)`. -/
def pyRound1 (q : ℚ) : ℚ := (roundHalfEven (10 * q) : ℚ) / 10

/-- Python `round(x, 2)`. -/
def pyRound2 (q : ℚ) : ℚ := (roundHalfEven (100 * q) : ℚ) / 100

/-- The result record of `get_24h_temperature_stats` (display times of
`last_24h_data` dropped; only the temperatures flow into later logic). -/
structure Stats24h where
  avg_temp : Option ℚ
  min_temp : Option ℚ
  max_temp : Option ℚ
  readings_count : Nat
  trend : String
  last_24h_data : List ℚ
  deriving Repr, DecidableEq

/-- Embeds `get_24h_temperature_stats` on the windowed newest-first temperature
list: empty window → all-absent record; otherwise rounded avg/min/max,
trend, and the sparkline list capped at the 48 most recent samples. -/
def get_24h_temperature_stats (temperatures : List ℚ) : Stats24h :=
  match temperatures with
  | [] => ⟨none, none, none, 0, "stable", []⟩
  | t :: ts =>
    let l := t :: ts
    ⟨some (pyRound1 (l.sum / (l.length : ℚ))),
     some (pyRound1 (listMin l)),
     some (pyRound1 (listMax l)),
     l.length, trend_of l, l.take 48⟩

/-! ### Dashboard combined location stats (`user_dashboard`,
`app.py` lines 571-639, regular-user branch) -/

/-- The per-room inputs of the dashboard loop: the result of
`get_temperature_data_for_cold_room(room_id, limit=1)` (at most one row)
and the newest-first 24h-windowed temperature list fed to
`get_24h_temperature_stats`. -/
structure RoomInput where
  latest_rows : List TempRow
  temps24h : List ℚ
  deriving Repr, DecidableEq

/-- The dashboard's `is_sensor_active` field for one room: the newest
row's `is_active`, `False` when the room has no data. -/
def room_is_active (inp : RoomInput) : Bool :=
  match inp.latest_rows.head? with
  | some latest => latest.is_active
  | none => false

/-- The accumulation of `all_active_temps` over the room loop
(`app.py` lines 593-594): the latest temperature of each room whose
newest sample is active. -/
def all_active_temps (rooms : List RoomInput) : List ℚ :=
  rooms.foldr (fun inp acc =>
    match inp.latest_rows.head? with
    | some latest => if latest.is_active then latest.temperature :: acc else acc
    | none => acc) []

/-- The accumulation of `all_24h_temps` over the room loop
(`app.py` lines 609-611): concatenation of each room's
`last_24h_data` temperatures. -/
def all_24h_temps (rooms : List RoomInput) : List ℚ :=
  (rooms.map (fun inp => (get_24h_temperature_stats inp.temps24h).last_24h_data)).flatten

/-- The `combined_stats` dictionary (`app.py` lines 630-639), minus the
timestamp fields which the claims do not mention. -/
structure CombinedStats where
  live_temp : Option ℚ
  avg_24h : Option ℚ
  min_24h : Option ℚ
  max_24h : Option ℚ
  online_count : Nat
  total_count : Nat
  deriving Repr, DecidableEq

/-- The combined location statistics computed at `app.py` lines 630-639. -/
def combined_stats (rooms : List RoomInput) : CombinedStats :=
  let active := all_active_temps rooms
  let t24 := all_24h_temps rooms
  { live_temp := if active.isEmpty then none
      else some (pyRound1 (active.sum / (active.length : ℚ)))
    avg_24h := if t24.isEmpty then none
      else some (pyRound1 (t24.sum / (t24.length : ℚ)))
    min_24h := if t24.isEmpty then none else some (pyRound1 (listMin t24))
    max_24h := if t24.isEmpty then none else some (pyRound1 (listMax t24))
    online_count := rooms.countP (fun inp => room_is_active inp)
    total_count := rooms.length }

/-- The pooled minimum the claim describes: minimum over the FULL 24h
sample sets of all rooms (written from the spec's words, to be compared
with `combined_stats`). -/
def combined_min_24h_spec (rooms : List RoomInput) : Option ℚ :=
  let pool := (rooms.map (fun inp => inp.temps24h)).flatten
  if pool.isEmpty then none else some (listMin pool)

/-- The live current temperatures across the location's rooms: the
latest-row temperature of each room whose latest row is active. -/
def live_current_temps (rooms : List RoomInput) : List ℚ :=
  ((rooms.filterMap (fun inp => inp.latest_rows.head?)).filter
    (fun row => row.is_active)).map (fun row => row.temperature)

/-- The pooled 24h temperatures actually aggregated by the dashboard:
each room's 24h window capped to its 48 newest samples. -/
def pooled_24h_capped (rooms : List RoomInput) : List ℚ :=
  (rooms.map (fun inp => inp.temps24h.take 48)).flatten

/-! ### Export/aggregation engine (`get_temperature_data_with_filters` and
`export_to_csv`, `app.py` lines 747-858).  Timestamps are epoch seconds
(UTC); `strftime('%Y-%m-%d %H:00:00', ts)` is truncation to the hour and
`DATE(ts)` truncation to the day, and string order on those formats is
chronological order. -/

/-- A raw `temperature_data` row as read by the export query. -/
structure RawSample where
  timestamp : Nat
  temperature : ℚ
  deriving Repr, DecidableEq

/-- Truncation of an epoch-second timestamp to its calendar hour
(`strftime('%Y-%m-%d %H:00:00', timestamp)`). -/
def truncHour (ts : Nat) : Nat := 3600 * (ts / 3600)

/-- Truncation of an epoch-second timestamp to its calendar day
(`DATE(timestamp)`). -/
def truncDay (ts : Nat) : Nat := 86400 * (ts / 86400)

/-- The date filter `AND DATE(timestamp) >= date_from AND
DATE(timestamp) <= date_to` (each bound optional, inclusive, at
calendar-day granularity; the bounds are day-truncated timestamps). -/
def inDateRange (date_from date_to : Option Nat) (ts : Nat) : Bool :=
  (match date_from with | none => true | some d => d ≤ truncDay ts) &&
  (match date_to with | none => true | some d => truncDay ts ≤ d)

/-- One output row of the hourly/daily aggregation queries. -/
structure AggRow where
  timestamp : Nat
  temperature : ℚ
  min_temp : ℚ
  max_temp : ℚ
  readings : Nat
  deriving Repr, DecidableEq

/-- The `GROUP BY bucket ... AVG/MIN/MAX/COUNT ... ORDER BY timestamp DESC`
query shape shared by the hourly and daily branches of
`get_temperature_data_with_filters`: one row per distinct bucket of the
date-filtered samples, newest bucket first. -/
def aggregate_export (bucket : Nat → Nat) (date_from date_to : Option Nat)
    (samples : List RawSample) : List AggRow :=
  let filtered := samples.filter (fun s => inDateRange date_from date_to s.timestamp)
  let buckets := (filtered.map (fun s => bucket s.timestamp)).dedup
  let sorted := buckets.insertionSort (· ≥ ·)
  sorted.map (fun b =>
    let temps := (filtered.filter (fun s => bucket s.timestamp = b)).map
      (fun s => s.temperature)
    { timestamp := b
      temperature := temps.sum / (temps.length : ℚ)
      min_temp := listMin temps
      max_temp := listMax temps
      readings := temps.length })

/-- The `aggregation == 'hourly'` branch (`app.py` lines 772-800). -/
def hourly_export (date_from date_to : Option Nat)
    (samples : List RawSample) : List AggRow :=
  aggregate_export truncHour date_from date_to samples

/-- The `aggregation == 'daily'` branch (`app.py` lines 802-825). -/
def daily_export (date_from date_to : Option Nat)
    (samples : List RawSample) : List AggRow :=
  aggregate_export truncDay date_from date_to samples

/-- The `aggregation == 'full'` branch (`app.py` lines 766-770): the
date-filtered raw rows, newest first, untransformed. -/
def full_export (date_from date_to : Option Nat)
    (samples : List RawSample) : List RawSample :=
  (samples.filter (fun s => inDateRange date_from date_to s.timestamp)).insertionSort
    (fun a b => a.timestamp ≥ b.timestamp)

/-- The temperatures of exactly those date-filtered samples whose
timestamp truncates to the given bucket (the claim's grouping set). -/
def bucket_group (bucket : Nat → Nat) (date_from date_to : Option Nat)
    (samples : List RawSample) (b : Nat) : List ℚ :=
  ((samples.filter (fun s => inDateRange date_from date_to s.timestamp)).filter
    (fun s => bucket s.timestamp = b)).map (fun s => s.temperature)

/-- The aggregated branch of `export_to_csv` (`app.py` lines 838-846):
per row, timestamp, `round(avg, 2)`, `round(min, 2)`, `round(max, 2)`,
reading count. -/
def export_to_csv_agg (rows : List AggRow) : List (Nat × ℚ × ℚ × ℚ × Nat) :=
  rows.map (fun r =>
    (r.timestamp, pyRound2 r.temperature, pyRound2 r.min_temp,
     pyRound2 r.max_temp, r.readings))

/-- The one-decimal variant the spec describes (written from the spec's
words, to be compared with `export_to_csv_agg`). -/
def export_to_csv_agg_spec (rows : List AggRow) :
    List (Nat × ℚ × ℚ × ℚ × Nat) :=
  rows.map (fun r =>
    (r.timestamp, pyRound1 r.temperature, pyRound1 r.min_temp,
     pyRound1 r.max_temp, r.readings))

/-- The full (raw) branch of `export_to_csv` (`app.py` lines 834-836):
each row's stored timestamp and temperature, no rounding. -/
def export_to_csv_full (rows : List RawSample) : List (Nat × ℚ) :=
  rows.map (fun r => (r.timestamp, r.temperature))

/-! ### Error log resolution (`database.py` lines 458-530) -/

/-- Embeds `database.resolve_esp32_error`: set the `resolved` flag of every row
with the given id (SQL `UPDATE ... WHERE id = ?`). -/
def resolve_esp32_error (db : DBState) (error_id : Nat) : DBState :=
  { db with esp32_errors := db.esp32_errors.map (fun e =>
      if e.id = error_id then { e with resolved := true } else e) }

/-- Embeds `database.get_all_unresolved_errors`: the unresolved rows, newest
first. -/
def get_all_unresolved_errors (db : DBState) : List Esp32Error :=
  (db.esp32_errors.filter (fun e => e.resolved = false)).insertionSort
    (fun a b => a.timestamp ≥ b.timestamp)

/-- Embeds `database.get_esp32_errors_for_cold_room`: the unresolved rows whose
`sensor_id` matches the room's current (truthy) sensor id, newest first,
up to `limit`. -/
def get_esp32_errors_for_cold_room (db : DBState) (cold_room_id limit : Nat) :
    List Esp32Error :=
  match db.cold_rooms.find? (fun r => r.id = cold_room_id) with
  | none => []
  | some cold_room =>
    match cold_room.sensor_id with
    | none => []
    | some sid =>
      if sid = "" then []
      else
        ((db.esp32_errors.filter (fun e =>
            e.sensor_id = sid && e.resolved = false)).insertionSort
          (fun a b => a.timestamp ≥ b.timestamp)).take limit

/-! ## Helper lemmas -/

/-- Each loop iteration increments exactly one of the two counters. -/
theorem process_reading_counter_sum (mac : String) (now : ℚ)
    (st : IngestState) (r : Reading) :
    (process_reading mac now st r).processed_count +
        (process_reading mac now st r).error_count
      = (st.processed_count + st.error_count) + 1 := by
  obtain ⟨osid, ot⟩ := r
  rcases osid with _ | sid <;> rcases ot with _ | t <;>
    simp only [process_reading]
  · omega
  · omega
  · omega
  · by_cases h : sid = ""
    · simp only [h, if_true]; omega
    · simp only [h, if_false]
      cases hr : get_cold_room_by_sensor st.db sid <;> simp <;> omega

/-- Folding the loop over a batch adds the batch length to the counter
sum. -/
theorem foldl_counter_sum (mac : String) (now : ℚ) :
    ∀ (rs : List Reading) (st : IngestState),
      (rs.foldl (process_reading mac now) st).processed_count +
          (rs.foldl (process_reading mac now) st).error_count
        = st.processed_count + st.error_count + rs.length := by
  intro rs
  induction rs with
  | nil => intro st; simp
  | cons r rs ih =>
    intro st
    simp only [List.foldl_cons, List.length_cons]
    rw [ih]
    have := process_reading_counter_sum mac now st r
    omega

/-- Every reading of a batch lands in exactly one counter: the counts
always sum to the batch length (no reading is skipped or processed
twice, and the fold is total — the loop never raises). -/
theorem ingest_counter_sum (mac : String) (now : ℚ) (db : DBState)
    (rs : List Reading) :
    (ingest mac now db rs).processed_count +
        (ingest mac now db rs).error_count = rs.length := by
  simpa using foldl_counter_sum mac now rs ⟨db, 0, 0⟩

/-! ## Claims -/

/-- Claim C1: For every reading in an ingested batch whose sensor identifier
is non-empty and resolves to a registered room and whose temperature is
present, ingestion appends exactly one temperature sample for that room's
id and increments the accepted count by exactly 1, and logs no error for
that reading. -/
theorem c1_accepted_reading_effects (mac : String) (now : ℚ)
    (st : IngestState) (r : Reading) (sid : String) (t : ℚ) (room : ColdRoom)
    (hsid : r.sensor_id = some sid) (hne : sid ≠ "")
    (ht : r.temperature = some t)
    (hroom : get_cold_room_by_sensor st.db sid = some room) :
    (process_reading mac now st r).db.temperature_data
        = st.db.temperature_data ++ [⟨room.id, t, some now⟩] ∧
    (process_reading mac now st r).processed_count = st.processed_count + 1 ∧
    (process_reading mac now st r).error_count = st.error_count ∧
    (process_reading mac now st r).db.esp32_errors = st.db.esp32_errors := by
  obtain ⟨osid, ot⟩ := r
  simp only at hsid ht
  subst hsid ht
  simp [process_reading, hne, hroom, insert_temperature_data]

/-- Witness for C1 at a concrete registry and reading. -/
theorem c1_witness :
    (process_reading "M" 0 ⟨⟨[⟨1, some "S1", 1⟩], [], [], 0⟩, 0, 0⟩
        ⟨some "S1", some 4⟩).db.temperature_data
      = ([] : List TempSample) ++ [⟨1, 4, some 0⟩] ∧
    (process_reading "M" 0 ⟨⟨[⟨1, some "S1", 1⟩], [], [], 0⟩, 0, 0⟩
        ⟨some "S1", some 4⟩).processed_count = 0 + 1 ∧
    (process_reading "M" 0 ⟨⟨[⟨1, some "S1", 1⟩], [], [], 0⟩, 0, 0⟩
        ⟨some "S1", some 4⟩).error_count = 0 ∧
    (process_reading "M" 0 ⟨⟨[⟨1, some "S1", 1⟩], [], [], 0⟩, 0, 0⟩
        ⟨some "S1", some 4⟩).db.esp32_errors = [] :=
  c1_accepted_reading_effects "M" 0 _ _ "S1" 4 ⟨1, some "S1", 1⟩ rfl
    (by decide) rfl (by rfl)

/-- Claim C2: Every non-accepted reading appends no sample, increments the
rejected count by exactly 1, and logs exactly one error record of the
matching kind (MALFORMED_DATA when the identifier is absent/empty or the
temperature absent, with sensor id "UNKNOWN" when no identifier is
available; UNREGISTERED_SENSOR when the identifier does not resolve);
and the batch fold processes every reading (counts sum to the batch
length: no per-reading failure aborts the loop). -/
theorem c2_rejected_reading_effects (mac : String) (now : ℚ)
    (st : IngestState) (r : Reading)
    (hrej : reading_accepted st.db r = false) :
    ((process_reading mac now st r).db.temperature_data
        = st.db.temperature_data ∧
     (process_reading mac now st r).processed_count = st.processed_count ∧
     (process_reading mac now st r).error_count = st.error_count + 1 ∧
     ∃ e : Esp32Error,
       (process_reading mac now st r).db.esp32_errors
           = st.db.esp32_errors ++ [e] ∧
       e.resolved = false ∧
       e.esp32_mac = mac ∧
       e.error_type = (if truthyStr r.sensor_id && r.temperature.isSome
         then "UNREGISTERED_SENSOR" else "MALFORMED_DATA") ∧
       (truthyStr r.sensor_id = false → e.sensor_id = "UNKNOWN")) ∧
    (∀ (db : DBState) (rs : List Reading),
      (ingest mac now db rs).processed_count +
          (ingest mac now db rs).error_count = rs.length) := by
  refine ⟨?_, fun db rs => ingest_counter_sum mac now db rs⟩
  obtain ⟨osid, ot⟩ := r
  rcases osid with _ | sid <;> rcases ot with _ | t
  · refine ⟨rfl, rfl, rfl,
      ⟨st.db.next_error_id, mac, orUnknown none, "MALFORMED_DATA",
        malformed_msg ⟨none, none⟩, now, false⟩, ?_, rfl, rfl, ?_, ?_⟩
    · simp [process_reading, log_esp32_error]
    · simp [truthyStr]
    · intro _; simp [orUnknown]
  · refine ⟨rfl, rfl, rfl,
      ⟨st.db.next_error_id, mac, orUnknown none, "MALFORMED_DATA",
        malformed_msg ⟨none, some t⟩, now, false⟩, ?_, rfl, rfl, ?_, ?_⟩
    · simp [process_reading, log_esp32_error]
    · simp [truthyStr]
    · intro _; simp [orUnknown]
  · refine ⟨rfl, rfl, rfl,
      ⟨st.db.next_error_id, mac, orUnknown (some sid), "MALFORMED_DATA",
        malformed_msg ⟨some sid, none⟩, now, false⟩, ?_, rfl, rfl, ?_, ?_⟩
    · simp [process_reading, log_esp32_error]
    · simp [truthyStr]
    · intro hf
      simp only [truthyStr, ne_eq, decide_eq_false_iff_not, not_not] at hf
      simp [orUnknown, hf]
  · by_cases h : sid = ""
    · subst h
      refine ⟨rfl, rfl, rfl,
        ⟨st.db.next_error_id, mac, orUnknown (some ""), "MALFORMED_DATA",
          malformed_msg ⟨some "", some t⟩, now, false⟩, ?_, rfl, rfl, ?_, ?_⟩
      · simp [process_reading, log_esp32_error]
      · simp [truthyStr]
      · intro _; simp [orUnknown]
    · cases hr : get_cold_room_by_sensor st.db sid with
      | some room =>
        exfalso
        simp [reading_accepted, truthyStr, hr, h] at hrej
      | none =>
        refine ⟨?_, ?_, ?_,
          ⟨st.db.next_error_id, mac, sid, "UNREGISTERED_SENSOR",
            unregistered_msg sid, now, false⟩, ?_, rfl, rfl, ?_, ?_⟩
        · simp [process_reading, h, hr, log_esp32_error]
        · simp [process_reading, h, hr]
        · simp [process_reading, h, hr, log_esp32_error]
        · simp [process_reading, h, hr, log_esp32_error]
        · simp [truthyStr, h]
        · intro hf
          simp [truthyStr, h] at hf

/-- Witness for C2: an unregistered-sensor reading on an empty registry. -/
theorem c2_witness :
    ((process_reading "M" 0 ⟨⟨[], [], [], 0⟩, 0, 0⟩
        ⟨some "S9", some 4⟩).db.temperature_data = [] ∧
     (process_reading "M" 0 ⟨⟨[], [], [], 0⟩, 0, 0⟩
        ⟨some "S9", some 4⟩).processed_count = 0 ∧
     (process_reading "M" 0 ⟨⟨[], [], [], 0⟩, 0, 0⟩
        ⟨some "S9", some 4⟩).error_count = 0 + 1 ∧
     ∃ e : Esp32Error,
       (process_reading "M" 0 ⟨⟨[], [], [], 0⟩, 0, 0⟩
           ⟨some "S9", some 4⟩).db.esp32_errors = [] ++ [e] ∧
       e.resolved = false ∧
       e.esp32_mac = "M" ∧
       e.error_type = (if truthyStr (some "S9") && (some (4:ℚ)).isSome
         then "UNREGISTERED_SENSOR" else "MALFORMED_DATA") ∧
       (truthyStr (some "S9") = false → e.sensor_id = "UNKNOWN")) ∧
    (∀ (db : DBState) (rs : List Reading),
      (ingest "M" 0 db rs).processed_count +
          (ingest "M" 0 db rs).error_count = rs.length) :=
  c2_rejected_reading_effects "M" 0 ⟨⟨[], [], [], 0⟩, 0, 0⟩
    ⟨some "S9", some 4⟩ (by decide)

/-- Claim C3: From the newest stored sample, the reported status is live
exactly when the computed age is ≤ 900 seconds (exactly 900 is live, 901
is not), and a non-live row's temperature is suppressed in the dashboard
even though the stored value is carried in the row. -/
theorem c3_liveness_is_age_threshold (now : ℚ) (s : TempSample) (a : ℚ)
    (h : (mk_temp_row now s).seconds_ago = some a) :
    ((mk_temp_row now s).is_active = true ↔ a ≤ 900) ∧
    ((mk_temp_row now s).is_active = false →
      latest_temp_of (mk_temp_row now s) = none) ∧
    (mk_temp_row now s).temperature = s.temperature ∧
    (mk_temp_row 900 ⟨1, 2, some 0⟩).is_active = true ∧
    (mk_temp_row 901 ⟨1, 2, some 0⟩).is_active = false := by
  refine ⟨?_, ?_, rfl, by norm_num [mk_temp_row], by norm_num [mk_temp_row]⟩
  · rcases hts : s.timestamp with _ | ts
    · simp [mk_temp_row, hts] at h
    · simp only [mk_temp_row, hts, Option.map_some'] at h ⊢
      simp only [Option.some.injEq] at h
      simp [h]
  · intro hfalse
    simp [latest_temp_of, hfalse]

/-- Witness for C3 at a sample exactly 901 seconds old. -/
theorem c3_witness :
    ((mk_temp_row 901 ⟨1, 2, some 0⟩).is_active = true ↔ (901 : ℚ) ≤ 900) ∧
    ((mk_temp_row 901 ⟨1, 2, some 0⟩).is_active = false →
      latest_temp_of (mk_temp_row 901 ⟨1, 2, some 0⟩) = none) ∧
    (mk_temp_row 901 ⟨1, 2, some 0⟩).temperature
        = (⟨1, 2, some 0⟩ : TempSample).temperature ∧
    (mk_temp_row 900 ⟨1, 2, some 0⟩).is_active = true ∧
    (mk_temp_row 901 ⟨1, 2, some 0⟩).is_active = false :=
  c3_liveness_is_age_threshold 901 ⟨1, 2, some 0⟩ 901 (by norm_num [mk_temp_row])

/-- Claim C10: A stored sample whose age cannot be computed at read time
(NULL `seconds_ago`, e.g. a NULL timestamp) is classified active, so its
temperature is reported as a current reading. -/
theorem c10_null_age_is_live (now : ℚ) (s : TempSample)
    (h : (mk_temp_row now s).seconds_ago = none) :
    (mk_temp_row now s).is_active = true ∧
    latest_temp_of (mk_temp_row now s) = some s.temperature := by
  rcases hts : s.timestamp with _ | ts
  · constructor
    · simp [mk_temp_row, hts]
    · simp [mk_temp_row, latest_temp_of, hts]
  · simp [mk_temp_row, hts] at h

/-- Witness for C10 at a sample with a NULL timestamp. -/
theorem c10_witness :
    (mk_temp_row 0 ⟨1, 5, none⟩).is_active = true ∧
    latest_temp_of (mk_temp_row 0 ⟨1, 5, none⟩)
        = some (⟨1, 5, none⟩ : TempSample).temperature :=
  c10_null_age_is_live 0 ⟨1, 5, none⟩ rfl

/-- Claim C4: On a newest-first 24h sequence with at least 2 samples the
trend is "rising" iff the mean of the first up-to-5 samples exceeds the
mean of the last up-to-5 by more than 0.5, "falling" iff it is more than
0.5 below it, and "stable" otherwise; with fewer than 2 samples the trend
is "stable" unconditionally. -/
theorem c4_trend_classification (l : List ℚ) :
    (2 ≤ l.length →
      ((trend_of l = "rising" ↔ recent_mean l > older_mean l + 0.5) ∧
       (trend_of l = "falling" ↔ recent_mean l < older_mean l - 0.5) ∧
       (trend_of l = "stable" ↔
         recent_mean l ≤ older_mean l + 0.5 ∧
           older_mean l - 0.5 ≤ recent_mean l))) ∧
    (l.length < 2 → trend_of l = "stable") := by
  have hlt : (l.take 5).length = min 5 l.length := List.length_take 5 l
  have hld : (lastN 5 l).length = min 5 l.length := by
    simp only [lastN, List.length_drop]
    omega
  have hR : recent_mean l = (l.take 5).sum / ((min 5 l.length : ℕ) : ℚ) := by
    rw [recent_mean, hlt]
  have hO : older_mean l = (lastN 5 l).sum / ((min 5 l.length : ℕ) : ℚ) := by
    rw [older_mean, hld]
  constructor
  · intro hlen
    have hlen' : l.length ≥ 2 := hlen
    simp only [trend_of, if_pos hlen']
    rw [hR, hO]
    set A := (l.take 5).sum / ((min 5 l.length : ℕ) : ℚ) with hA
    set B := (lastN 5 l).sum / ((min 5 l.length : ℕ) : ℚ) with hB
    by_cases h1 : A > B + 0.5
    · simp only [if_pos h1]
      refine ⟨by simp [h1], ?_, ?_⟩
      · exact iff_of_false (by decide) (by intro h2; linarith)
      · exact iff_of_false (by decide) (fun hc => absurd h1 (not_lt.mpr hc.1))
    · simp only [if_neg h1]
      by_cases h2 : A < B - 0.5
      · simp only [if_pos h2]
        refine ⟨iff_of_false (by decide) h1, by simp [h2], ?_⟩
        exact iff_of_false (by decide) (fun hc => absurd h2 (not_lt.mpr hc.2))
      · simp only [if_neg h2]
        exact ⟨iff_of_false (by decide) h1, iff_of_false (by decide) h2,
          iff_of_true trivial ⟨not_lt.mp h1, not_lt.mp h2⟩⟩
  · intro hlen
    simp only [trend_of]
    rw [if_neg (by omega)]

/-- Witness for C4: a 2-sample sequence (stable) and a 1-sample sequence. -/
theorem c4_witness :
    ((trend_of [5, 4] = "rising" ↔
        recent_mean [5, 4] > older_mean [5, 4] + 0.5) ∧
     (trend_of [5, 4] = "falling" ↔
        recent_mean [5, 4] < older_mean [5, 4] - 0.5) ∧
     (trend_of [5, 4] = "stable" ↔
        recent_mean [5, 4] ≤ older_mean [5, 4] + 0.5 ∧
          older_mean [5, 4] - 0.5 ≤ recent_mean [5, 4])) ∧
    trend_of [(3 : ℚ)] = "stable" :=
  ⟨(c4_trend_classification [5, 4]).1 (by decide),
   (c4_trend_classification [3]).2 (by decide)⟩

/-- Evaluation rule: when the fractional part is below one half, the
rounding returns the floor. -/
theorem roundHalfEven_eq_of_lt (q : ℚ) (z : ℤ) (hle : (z : ℚ) ≤ q)
    (hlt : q - (z : ℚ) < 1/2) : roundHalfEven q = z := by
  have hfl : ⌊q⌋ = z := Int.floor_eq_iff.mpr ⟨hle, by linarith⟩
  rw [roundHalfEven, hfl, if_pos hlt]

/-- The half-even rounding is within one half of its argument. -/
theorem abs_roundHalfEven_sub_le (q : ℚ) :
    |(roundHalfEven q : ℚ) - q| ≤ 1/2 := by
  have h0 : (⌊q⌋ : ℚ) ≤ q := Int.floor_le q
  have h1 : q < ⌊q⌋ + 1 := Int.lt_floor_add_one q
  rw [roundHalfEven]
  by_cases hlt : q - (⌊q⌋ : ℚ) < 1/2
  · rw [if_pos hlt, abs_le]
    constructor <;> linarith
  · rw [if_neg hlt]
    by_cases hgt : (1 : ℚ)/2 < q - (⌊q⌋ : ℚ)
    · rw [if_pos hgt]
      push_cast
      rw [abs_le]
      constructor <;> linarith
    · rw [if_neg hgt]
      by_cases he : ⌊q⌋ % 2 = 0
      · rw [if_pos he, abs_le]
        constructor <;> linarith
      · rw [if_neg he]
        push_cast
        rw [abs_le]
        constructor <;> linarith

/-- Python `round(x, 2)` is within 1/200 of its argument. -/
theorem abs_pyRound2_sub_le (q : ℚ) : |pyRound2 q - q| ≤ 1/200 := by
  have h := abs_roundHalfEven_sub_le (100 * q)
  have heq : pyRound2 q - q = ((roundHalfEven (100 * q) : ℚ) - 100 * q) / 100 := by
    rw [pyRound2]; ring
  rw [heq, abs_div]
  rw [abs_of_pos (by norm_num : (0:ℚ) < 100)]
  linarith

/-- Python `round(x, 2)` lands on the hundredths grid: multiplied by 100 it is
an integer. -/
theorem pyRound2_mul_hundred_den (q : ℚ) : (pyRound2 q * 100).den = 1 := by
  have heq : pyRound2 q * 100 = (roundHalfEven (100 * q) : ℚ) := by
    rw [pyRound2]
    field_simp
  rw [heq]
  exact Rat.den_intCast _

/-- Amended C7: Every hourly/daily export row's emitted aggregates
are `round(·, 2)` of the bucket aggregates — two decimal places, within
1/200 of the exact value and on the hundredths grid — while every full
(raw) export row carries the stored temperature unchanged. -/
theorem c7_agg_rounded_two_decimals (rows : List AggRow)
    (raw : List RawSample) :
    (∀ row ∈ export_to_csv_agg rows, ∃ r ∈ rows,
      row.1 = r.timestamp ∧
      row.2.1 = pyRound2 r.temperature ∧
      row.2.2.1 = pyRound2 r.min_temp ∧
      row.2.2.2.1 = pyRound2 r.max_temp ∧
      row.2.2.2.2 = r.readings ∧
      |row.2.1 - r.temperature| ≤ 1/200 ∧
      (row.2.1 * 100).den = 1) ∧
    (∀ r ∈ raw, (r.timestamp, r.temperature) ∈ export_to_csv_full raw) := by
  constructor
  · intro row hrow
    obtain ⟨r, hr, rfl⟩ := List.mem_map.mp hrow
    exact ⟨r, hr, rfl, rfl, rfl, rfl, rfl,
      abs_pyRound2_sub_le r.temperature, pyRound2_mul_hundred_den r.temperature⟩
  · intro r hr
    exact List.mem_map.mpr ⟨r, hr, rfl⟩

/-- Witness for the amended C7 at a one-row export. -/
theorem c7_amended_witness :
    (∃ r ∈ [(⟨0, 1, 1, 1, 1⟩ : AggRow)],
      (export_to_csv_agg [(⟨0, 1, 1, 1, 1⟩ : AggRow)]).headI.1 = r.timestamp ∧
      (export_to_csv_agg [(⟨0, 1, 1, 1, 1⟩ : AggRow)]).headI.2.1
          = pyRound2 r.temperature ∧
      (export_to_csv_agg [(⟨0, 1, 1, 1, 1⟩ : AggRow)]).headI.2.2.1
          = pyRound2 r.min_temp ∧
      (export_to_csv_agg [(⟨0, 1, 1, 1, 1⟩ : AggRow)]).headI.2.2.2.1
          = pyRound2 r.max_temp ∧
      (export_to_csv_agg [(⟨0, 1, 1, 1, 1⟩ : AggRow)]).headI.2.2.2.2
          = r.readings ∧
      |(export_to_csv_agg [(⟨0, 1, 1, 1, 1⟩ : AggRow)]).headI.2.1
          - r.temperature| ≤ 1/200 ∧
      ((export_to_csv_agg [(⟨0, 1, 1, 1, 1⟩ : AggRow)]).headI.2.1 * 100).den
          = 1) ∧
    ((0 : Nat), (7 : ℚ)) ∈ export_to_csv_full [⟨0, 7⟩] :=
  ⟨(c7_agg_rounded_two_decimals [⟨0, 1, 1, 1, 1⟩] []).1
      (export_to_csv_agg [⟨0, 1, 1, 1, 1⟩]).headI
      (by simp [export_to_csv_agg]),
   (c7_agg_rounded_two_decimals [] [⟨0, 7⟩]).2 ⟨0, 7⟩ (by simp)⟩

/-- Counterexample to C7: With a stored bucket average of 1.23 the code
emits `round(·, 2) = 1.23`, while one-decimal rounding gives 1.2: the
emitted aggregates are not rounded to one decimal place. -/
theorem c7_counterexample :
    export_to_csv_agg [⟨0, 123/100, 123/100, 123/100, 1⟩] =
      [(0, 123/100, 123/100, 123/100, 1)] ∧
    export_to_csv_agg_spec [⟨0, 123/100, 123/100, 123/100, 1⟩] =
      [(0, 6/5, 6/5, 6/5, 1)] ∧
    ((123 : ℚ)/100) ≠ 6/5 := by
  have h2 : pyRound2 ((123 : ℚ)/100) = 123/100 := by
    rw [pyRound2]
    have he : (100 : ℚ) * (123/100) = ((123 : ℤ) : ℚ) := by norm_num
    rw [he, roundHalfEven_eq_of_lt _ 123 (by norm_num) (by norm_num)]
    norm_num
  have h1 : pyRound1 ((123 : ℚ)/100) = 6/5 := by
    rw [pyRound1]
    have he : (10 : ℚ) * (123/100) = 123/10 := by norm_num
    rw [he, roundHalfEven_eq_of_lt (123/10) 12 (by norm_num) (by norm_num)]
    norm_num
  refine ⟨?_, ?_, by norm_num⟩
  · simp [export_to_csv_agg, h2]
  · simp [export_to_csv_agg_spec, h1]

/-- Resolving twice maps each row through an idempotent per-row update. -/
theorem resolve_row_update_idem (error_id : Nat) (l : List Esp32Error) :
    (l.map (fun e => if e.id = error_id then { e with resolved := true }
        else e)).map (fun e => if e.id = error_id then
        { e with resolved := true } else e)
      = l.map (fun e => if e.id = error_id then { e with resolved := true }
        else e) := by
  rw [List.map_map]
  apply List.map_congr_left
  intro e _
  by_cases h : e.id = error_id <;> simp [h]

/-- Claim C9: Resolving an error id twice is idempotent: the `resolved`
flag stays true, resolving an already-resolved or nonexistent id has no
further effect, and after a resolve the id no longer appears in
`all_unresolved()` or in the per-room unresolved listing. -/
theorem c9_resolve_idempotent (db : DBState) (error_id : Nat) :
    resolve_esp32_error (resolve_esp32_error db error_id) error_id
        = resolve_esp32_error db error_id ∧
    (∀ e ∈ (resolve_esp32_error db error_id).esp32_errors,
      e.id = error_id → e.resolved = true) ∧
    (∀ e ∈ get_all_unresolved_errors (resolve_esp32_error db error_id),
      e.id ≠ error_id) ∧
    (∀ room limit : Nat, ∀ e ∈ get_esp32_errors_for_cold_room
        (resolve_esp32_error db error_id) room limit, e.id ≠ error_id) ∧
    ((∀ e ∈ db.esp32_errors, e.id ≠ error_id) →
      resolve_esp32_error db error_id = db) := by
  have hflag : ∀ e ∈ (resolve_esp32_error db error_id).esp32_errors,
      e.id = error_id → e.resolved = true := by
    intro e he heq
    obtain ⟨a, _, rfl⟩ := List.mem_map.mp he
    by_cases h : a.id = error_id
    · simp [h]
    · simp only [if_neg h] at heq ⊢
      exact absurd heq h
  refine ⟨?_, hflag, ?_, ?_, ?_⟩
  · simp only [resolve_esp32_error]
    rw [resolve_row_update_idem]
  · intro e he heq
    have hmem : e ∈ (resolve_esp32_error db error_id).esp32_errors.filter
        (fun e => e.resolved = false) :=
      (List.perm_insertionSort _ _).mem_iff.mp he
    have h1 := (List.mem_filter.mp hmem).1
    have h2 := (List.mem_filter.mp hmem).2
    have := hflag e h1 heq
    simp [this] at h2
  · intro room limit e he heq
    rw [get_esp32_errors_for_cold_room] at he
    rcases hf : (resolve_esp32_error db error_id).cold_rooms.find?
        (fun r => r.id = room) with _ | cr
    · rw [hf] at he; simp at he
    · rw [hf] at he
      dsimp only at he
      rcases hs : cr.sensor_id with _ | sid
      · rw [hs] at he; simp at he
      · rw [hs] at he
        dsimp only at he
        by_cases hempty : sid = ""
        · rw [if_pos hempty] at he; simp at he
        · rw [if_neg hempty] at he
          have hmem := List.take_subset limit _ he
          have hmem2 : e ∈ (resolve_esp32_error db error_id).esp32_errors.filter
              (fun e => e.sensor_id = sid && e.resolved = false) :=
            (List.perm_insertionSort _ _).mem_iff.mp hmem
          have h1 := (List.mem_filter.mp hmem2).1
          have h2 := (List.mem_filter.mp hmem2).2
          have := hflag e h1 heq
          simp [this] at h2
  · intro hnone
    have : db.esp32_errors.map (fun e => if e.id = error_id then
        { e with resolved := true } else e) = db.esp32_errors.map id :=
      List.map_congr_left (fun e he => by simp [hnone e he])
    simp only [resolve_esp32_error, this, List.map_id]

/-- Witness for C9: a one-error log, resolved twice, and a log whose only
error has a different id. -/
theorem c9_witness :
    resolve_esp32_error (resolve_esp32_error
        ⟨[⟨1, some "S1", 1⟩], [], [⟨7, "M", "S1", "MALFORMED_DATA", "m", 0,
          false⟩], 8⟩ 7) 7
      = resolve_esp32_error
        ⟨[⟨1, some "S1", 1⟩], [], [⟨7, "M", "S1", "MALFORMED_DATA", "m", 0,
          false⟩], 8⟩ 7 ∧
    resolve_esp32_error
        ⟨[], [], [⟨9, "M", "S1", "MALFORMED_DATA", "m", 0, false⟩], 10⟩ 7
      = ⟨[], [], [⟨9, "M", "S1", "MALFORMED_DATA", "m", 0, false⟩], 10⟩ ∧
    get_all_unresolved_errors (resolve_esp32_error
        ⟨[⟨1, some "S1", 1⟩], [], [⟨7, "M", "S1", "MALFORMED_DATA", "m", 0,
          false⟩], 8⟩ 7) = [] :=
  ⟨(c9_resolve_idempotent ⟨[⟨1, some "S1", 1⟩], [],
      [⟨7, "M", "S1", "MALFORMED_DATA", "m", 0, false⟩], 8⟩ 7).1,
   (c9_resolve_idempotent ⟨[], [],
      [⟨9, "M", "S1", "MALFORMED_DATA", "m", 0, false⟩], 10⟩ 7).2.2.2.2
     (by decide),
   by decide⟩

/-- Counterexample to C8: An envelope with `esp32_mac` present and
`readings` present as a collection (the empty array) is not invalid per
the claim, yet the endpoint answers with client error 400 instead of
success. -/
theorem c8_counterexample :
    envelope_invalid_spec (some ⟨some "AA", some (.rlist [])⟩) = false ∧
    (receive_esp32_data 0 ⟨[], [], [], 0⟩
        (some ⟨some "AA", some (.rlist [])⟩)).1.code = 400 ∧
    (receive_esp32_data 0 ⟨[], [], [], 0⟩
        (some ⟨some "AA", some (.rlist [])⟩)).1.status = "error" ∧
    (400 : Nat) ≠ 200 := by
  refine ⟨rfl, ?_, ?_, by decide⟩ <;> rfl

/-- Amended C8: The endpoint answers client error 400, with the
database untouched, exactly when the body is falsy or `esp32_mac` or
`readings` is Python-falsy (absent, null, empty string, empty list);
a truthy `esp32_mac` with a truthy non-collection `readings` yields
server error 500 with the database untouched; and a truthy mac with a
non-empty readings list always yields 200/"success" with the message
"Processed N readings. M errors logged.", the M clause omitted when
M = 0. -/
theorem c8_envelope_amended (now : ℚ) (db : DBState)
    (body : Option ReqBody) :
    ((receive_esp32_data now db body).1.code = 400 ↔
      (body = none ∨ ∃ d, body = some d ∧
        (truthyStr d.esp32_mac = false ∨
          truthyReadings d.readings = false))) ∧
    ((receive_esp32_data now db body).1.code = 400 →
      (receive_esp32_data now db body).2 = db ∧
      (receive_esp32_data now db body).1.status = "error") ∧
    (∀ d rs, body = some d → truthyStr d.esp32_mac = true →
      d.readings = some (.rlist rs) → rs.isEmpty = false →
      (receive_esp32_data now db body).1 =
        ⟨200, "success",
          response_message
            (ingest (d.esp32_mac.getD "") now db rs).processed_count
            (ingest (d.esp32_mac.getD "") now db rs).error_count⟩ ∧
      (receive_esp32_data now db body).2 =
        (ingest (d.esp32_mac.getD "") now db rs).db) ∧
    (∀ d b, body = some d → truthyStr d.esp32_mac = true →
      d.readings = some (.scalar b) → b = true →
      (receive_esp32_data now db body).1.code = 500 ∧
      (receive_esp32_data now db body).2 = db) ∧
    (∀ n : Nat, response_message n 0 =
      "Processed " ++ toString n ++ " readings.") := by
  have hmsg : ∀ n : Nat, response_message n 0 =
      "Processed " ++ toString n ++ " readings." := by
    intro n; simp [response_message]
  rcases body with _ | d
  · refine ⟨iff_of_true rfl (Or.inl rfl), fun _ => ⟨rfl, rfl⟩, ?_, ?_, hmsg⟩
    · intro d rs h; exact absurd h (by simp)
    · intro d b h; exact absurd h (by simp)
  · cases hmac : truthyStr d.esp32_mac with
    | false =>
      have hresp : receive_esp32_data now db (some d) =
          (⟨400, "error", "Missing esp32_mac or readings"⟩, db) := by
        simp [receive_esp32_data, hmac]
      refine ⟨?_, ?_, ?_, ?_, hmsg⟩
      · rw [hresp]
        exact iff_of_true rfl (Or.inr ⟨d, rfl, Or.inl hmac⟩)
      · intro _; rw [hresp]; exact ⟨rfl, rfl⟩
      · intro d' rs hd hmac' _ _
        obtain rfl : d = d' := by injection hd
        rw [hmac] at hmac'; exact absurd hmac' (by simp)
      · intro d' b hd hmac' _ _
        obtain rfl : d = d' := by injection hd
        rw [hmac] at hmac'; exact absurd hmac' (by simp)
    | true =>
      cases hrd : truthyReadings d.readings with
      | false =>
        have hresp : receive_esp32_data now db (some d) =
            (⟨400, "error", "Missing esp32_mac or readings"⟩, db) := by
          simp [receive_esp32_data, hmac, hrd]
        refine ⟨?_, ?_, ?_, ?_, hmsg⟩
        · rw [hresp]
          exact iff_of_true rfl (Or.inr ⟨d, rfl, Or.inr hrd⟩)
        · intro _; rw [hresp]; exact ⟨rfl, rfl⟩
        · intro d' rs hd _ hread hne
          obtain rfl : d = d' := by injection hd
          rw [hread] at hrd
          simp [truthyReadings, hne] at hrd
        · intro d' b hd _ hread hb
          obtain rfl : d = d' := by injection hd
          rw [hread] at hrd
          simp [truthyReadings, hb] at hrd
      | true =>
        rcases hread : d.readings with _ | ⟨rs⟩ | ⟨b⟩
        · rw [hread] at hrd; simp [truthyReadings] at hrd
        · rw [hread] at hrd
          have hresp : receive_esp32_data now db (some d) =
              (⟨200, "success",
                response_message
                  (ingest (d.esp32_mac.getD "") now db rs).processed_count
                  (ingest (d.esp32_mac.getD "") now db rs).error_count⟩,
               (ingest (d.esp32_mac.getD "") now db rs).db) := by
            simp [receive_esp32_data, hmac, hrd, hread]
          refine ⟨?_, ?_, ?_, ?_, hmsg⟩
          · rw [hresp]
            refine iff_of_false (by simp) ?_
            rintro (h | ⟨d', hd, hcase⟩)
            · exact absurd h (by simp)
            · obtain rfl : d = d' := by injection hd
              rcases hcase with h | h
              · rw [hmac] at h; exact absurd h (by simp)
              · simp [hread, hrd] at h
          · intro h400; rw [hresp] at h400; simp at h400
          · intro d' rs' hd _ hread' _
            obtain rfl : d = d' := by injection hd
            rw [hread] at hread'
            obtain rfl : rs = rs' := by
              injection hread' with h'; injection h'
            rw [hresp]
            exact ⟨rfl, rfl⟩
          · intro d' b hd _ hread' _
            obtain rfl : d = d' := by injection hd
            rw [hread] at hread'
            injection hread' with h'
            exact absurd h' (by simp)
        · rw [hread] at hrd
          have hresp : receive_esp32_data now db (some d) =
              (⟨500, "error", "Internal server error"⟩, db) := by
            simp [receive_esp32_data, hmac, hrd, hread]
          refine ⟨?_, ?_, ?_, ?_, hmsg⟩
          · rw [hresp]
            refine iff_of_false (by simp) ?_
            rintro (h | ⟨d', hd, hcase⟩)
            · exact absurd h (by simp)
            · obtain rfl : d = d' := by injection hd
              rcases hcase with h | h
              · rw [hmac] at h; exact absurd h (by simp)
              · simp [hread, hrd] at h
          · intro h400; rw [hresp] at h400; simp at h400
          · intro d' rs' hd _ hread' _
            obtain rfl : d = d' := by injection hd
            rw [hread] at hread'
            injection hread' with h'
            exact absurd h' (by simp)
          · intro d' b' hd _ hread' _
            obtain rfl : d = d' := by injection hd
            rw [hresp]
            exact ⟨rfl, rfl⟩

/-- Witness for the amended C8: a one-reading batch and a truthy
non-collection readings value. -/
theorem c8_amended_witness :
    ((receive_esp32_data 0 ⟨[], [], [], 0⟩
        (some ⟨some "AA", some (.rlist [⟨some "S", some 3⟩])⟩)).1 =
      ⟨200, "success",
        response_message
          (ingest ((some "AA").getD "") 0 ⟨[], [], [], 0⟩
            [⟨some "S", some 3⟩]).processed_count
          (ingest ((some "AA").getD "") 0 ⟨[], [], [], 0⟩
            [⟨some "S", some 3⟩]).error_count⟩ ∧
     (receive_esp32_data 0 ⟨[], [], [], 0⟩
        (some ⟨some "AA", some (.rlist [⟨some "S", some 3⟩])⟩)).2 =
      (ingest ((some "AA").getD "") 0 ⟨[], [], [], 0⟩
        [⟨some "S", some 3⟩]).db) ∧
    ((receive_esp32_data 0 ⟨[], [], [], 0⟩
        (some ⟨some "AA", some (.scalar true)⟩)).1.code = 500 ∧
     (receive_esp32_data 0 ⟨[], [], [], 0⟩
        (some ⟨some "AA", some (.scalar true)⟩)).2 = ⟨[], [], [], 0⟩) :=
  ⟨(c8_envelope_amended 0 ⟨[], [], [], 0⟩
      (some ⟨some "AA", some (.rlist [⟨some "S", some 3⟩])⟩)).2.2.1
      ⟨some "AA", some (.rlist [⟨some "S", some 3⟩])⟩ [⟨some "S", some 3⟩]
      rfl (by decide) rfl (by decide),
   (c8_envelope_amended 0 ⟨[], [], [], 0⟩
      (some ⟨some "AA", some (.scalar true)⟩)).2.2.2.1
      ⟨some "AA", some (.scalar true)⟩ true rfl (by decide) rfl rfl⟩

/-- Common grouping facts of the bucketed export queries: rows are
newest-bucket-first, each row aggregates exactly its bucket's group, and
every filtered sample's bucket has a row. -/
theorem aggregate_export_spec (bucket : Nat → Nat) (df dt : Option Nat)
    (samples : List RawSample) :
    (aggregate_export bucket df dt samples).Pairwise
        (fun a b => b.timestamp ≤ a.timestamp) ∧
    (∀ row ∈ aggregate_export bucket df dt samples,
      row.temperature = (bucket_group bucket df dt samples row.timestamp).sum /
        ((bucket_group bucket df dt samples row.timestamp).length : ℚ) ∧
      row.min_temp = listMin (bucket_group bucket df dt samples row.timestamp) ∧
      row.max_temp = listMax (bucket_group bucket df dt samples row.timestamp) ∧
      row.readings = (bucket_group bucket df dt samples row.timestamp).length) ∧
    (∀ s ∈ samples, inDateRange df dt s.timestamp = true →
      ∃ row ∈ aggregate_export bucket df dt samples,
        row.timestamp = bucket s.timestamp) := by
  refine ⟨?_, ?_, ?_⟩
  · simp only [aggregate_export]
    exact List.Pairwise.map _ (fun a b hab => hab)
      (List.sorted_insertionSort _ _)
  · intro row hrow
    simp only [aggregate_export] at hrow
    obtain ⟨b, _, rfl⟩ := List.mem_map.mp hrow
    exact ⟨rfl, rfl, rfl, rfl⟩
  · intro s hs hin
    have h1 : s ∈ samples.filter (fun s => inDateRange df dt s.timestamp) :=
      List.mem_filter.mpr ⟨hs, hin⟩
    have h2 : bucket s.timestamp ∈
        ((samples.filter (fun s => inDateRange df dt s.timestamp)).map
          (fun s => bucket s.timestamp)).dedup :=
      List.mem_dedup.mpr (List.mem_map.mpr ⟨s, h1, rfl⟩)
    have h3 : bucket s.timestamp ∈ List.insertionSort (· ≥ ·)
        ((samples.filter (fun s => inDateRange df dt s.timestamp)).map
          (fun s => bucket s.timestamp)).dedup :=
      (List.perm_insertionSort _ _).mem_iff.mpr h2
    exact ⟨_, List.mem_map.mpr ⟨bucket s.timestamp, h3, rfl⟩, rfl⟩

/-- Claim C5: The hourly export has one row per distinct calendar-hour
bucket of the date-filtered samples, newest bucket first; each row's avg
is the arithmetic mean of exactly the samples truncating to that bucket,
its min/max their minimum/maximum and its reading count their number —
and likewise for daily with calendar-day truncation. -/
theorem c5_hourly_daily_grouping (samples : List RawSample)
    (df dt : Option Nat) :
    ((hourly_export df dt samples).Pairwise
        (fun a b => b.timestamp ≤ a.timestamp) ∧
     (∀ row ∈ hourly_export df dt samples,
       row.temperature =
           (bucket_group truncHour df dt samples row.timestamp).sum /
           ((bucket_group truncHour df dt samples row.timestamp).length : ℚ) ∧
       row.min_temp =
           listMin (bucket_group truncHour df dt samples row.timestamp) ∧
       row.max_temp =
           listMax (bucket_group truncHour df dt samples row.timestamp) ∧
       row.readings =
           (bucket_group truncHour df dt samples row.timestamp).length) ∧
     (∀ s ∈ samples, inDateRange df dt s.timestamp = true →
       ∃ row ∈ hourly_export df dt samples,
         row.timestamp = truncHour s.timestamp)) ∧
    ((daily_export df dt samples).Pairwise
        (fun a b => b.timestamp ≤ a.timestamp) ∧
     (∀ row ∈ daily_export df dt samples,
       row.temperature =
           (bucket_group truncDay df dt samples row.timestamp).sum /
           ((bucket_group truncDay df dt samples row.timestamp).length : ℚ) ∧
       row.min_temp =
           listMin (bucket_group truncDay df dt samples row.timestamp) ∧
       row.max_temp =
           listMax (bucket_group truncDay df dt samples row.timestamp) ∧
       row.readings =
           (bucket_group truncDay df dt samples row.timestamp).length) ∧
     (∀ s ∈ samples, inDateRange df dt s.timestamp = true →
       ∃ row ∈ daily_export df dt samples,
         row.timestamp = truncDay s.timestamp)) :=
  ⟨aggregate_export_spec truncHour df dt samples,
   aggregate_export_spec truncDay df dt samples⟩

/-- Witness for C5: three samples spanning two calendar hours. -/
theorem c5_witness :
    (∃ row ∈ hourly_export none none [⟨0, 1⟩, ⟨1800, 3⟩, ⟨3600, 5⟩],
      row.timestamp = truncHour 1800) ∧
    (∃ row ∈ daily_export none none [⟨0, 1⟩, ⟨1800, 3⟩, ⟨3600, 5⟩],
      row.timestamp = truncDay 3600) :=
  ⟨((c5_hourly_daily_grouping [⟨0, 1⟩, ⟨1800, 3⟩, ⟨3600, 5⟩]
      none none).1).2.2 ⟨1800, 3⟩ (by decide) rfl,
   ((c5_hourly_daily_grouping [⟨0, 1⟩, ⟨1800, 3⟩, ⟨3600, 5⟩]
      none none).2).2.2 ⟨3600, 5⟩ (by decide) rfl⟩

/-- The sparkline list of the 24h stats is the window capped at 48. -/
theorem last_24h_take (l : List ℚ) :
    (get_24h_temperature_stats l).last_24h_data = l.take 48 := by
  cases l with
  | nil => rfl
  | cons t ts => rfl

/-- The dashboard's pooled 24h list is the concatenation of the per-room
48-capped windows. -/
theorem all_24h_temps_eq (rooms : List RoomInput) :
    all_24h_temps rooms = pooled_24h_capped rooms := by
  unfold all_24h_temps pooled_24h_capped
  congr 1
  apply List.map_congr_left
  intro inp _
  exact last_24h_take inp.temps24h

/-- The dashboard's live-temperature accumulator lists exactly the
latest temperatures of the active rooms. -/
theorem all_active_temps_eq (rooms : List RoomInput) :
    all_active_temps rooms = live_current_temps rooms := by
  induction rooms with
  | nil => rfl
  | cons r rs ih =>
    simp only [all_active_temps, live_current_temps, List.foldr_cons,
      List.filterMap_cons] at *
    rcases hr : r.latest_rows.head? with _ | row
    · simpa [hr] using ih
    · simp only [hr]
      by_cases ha : row.is_active
      · simp [ha, ih]
      · simp [ha, ih]

set_option maxRecDepth 8000 in
/-- Counterexample to C6: A room with 49 samples in its 24h window: the
dashboard's pooled minimum is computed over the 48-capped sparkline list
(0) and misses the 49th sample (−10), so not every 24h sample
contributes. -/
theorem c6_counterexample :
    (combined_stats [⟨[], List.replicate 48 0 ++ [-10]⟩]).min_24h
        = some 0 ∧
    combined_min_24h_spec [⟨[], List.replicate 48 0 ++ [-10]⟩]
        = some (-10) ∧
    some (0 : ℚ) ≠ some (-10 : ℚ) := by
  have htake : (List.replicate 48 (0 : ℚ) ++ [-10]).take 48
      = List.replicate 48 0 := by decide
  have h24 : all_24h_temps [⟨[], List.replicate 48 (0 : ℚ) ++ [-10]⟩]
      = List.replicate 48 (0 : ℚ) := by
    simp [all_24h_temps, last_24h_take, htake]
  have hmin : listMin (List.replicate 48 (0 : ℚ)) = 0 := by decide
  have hp : pyRound1 (0 : ℚ) = 0 := by
    have h0 : (10 : ℚ) * 0 = 0 := by norm_num
    rw [pyRound1, h0, roundHalfEven_eq_of_lt 0 0 (by norm_num) (by norm_num)]
    norm_num
  refine ⟨?_, by decide, by norm_num⟩
  have hne : (List.replicate 48 (0 : ℚ)).isEmpty = false := by decide
  simp only [combined_stats, h24, hne, Bool.false_eq_true, if_false, hmin, hp]

/-- Amended C6: The combined location stats report, rounded to one
decimal, the mean of the live current temperatures, and the mean, min and
max pooled across each room's 24h samples capped to the 48 newest per
room; online_count is the number of currently live rooms and total_count
the number of rooms. -/
theorem c6_combined_stats_amended (rooms : List RoomInput) :
    (combined_stats rooms).total_count = rooms.length ∧
    (combined_stats rooms).online_count =
      (rooms.filter (fun inp => room_is_active inp)).length ∧
    (combined_stats rooms).live_temp =
      (if (live_current_temps rooms).isEmpty then none
       else some (pyRound1 ((live_current_temps rooms).sum /
         ((live_current_temps rooms).length : ℚ)))) ∧
    (combined_stats rooms).avg_24h =
      (if (pooled_24h_capped rooms).isEmpty then none
       else some (pyRound1 ((pooled_24h_capped rooms).sum /
         ((pooled_24h_capped rooms).length : ℚ)))) ∧
    (combined_stats rooms).min_24h =
      (if (pooled_24h_capped rooms).isEmpty then none
       else some (pyRound1 (listMin (pooled_24h_capped rooms)))) ∧
    (combined_stats rooms).max_24h =
      (if (pooled_24h_capped rooms).isEmpty then none
       else some (pyRound1 (listMax (pooled_24h_capped rooms)))) := by
  have hA := all_active_temps_eq rooms
  have h24 := all_24h_temps_eq rooms
  refine ⟨rfl, ?_, ?_, ?_, ?_, ?_⟩
  · simp only [combined_stats]
    exact List.countP_eq_length_filter _ _
  · simp only [combined_stats, hA]
  · simp only [combined_stats, h24]
  · simp only [combined_stats, h24]
  · simp only [combined_stats, h24]

end Coolking
